import Mathlib

/-!
Verification of the extended-attribute repair tool (`src/fix_ea/fix_ea.c`)
against its natural-language specification.

The C program is shallowly embedded: byte buffers become `List Nat`
(each element one byte), the `struct xattr` records become `Xattr`,
the `u_int64_t` flag word becomes a structure of booleans (one per
`F_*` bit), and the host-filesystem extattr primitives
(`extattr_list_fd`, `extattr_get_fd`, `extattr_set_fd`) and `malloc`
become oracle parameters: an oracle tells, for each call, whether the
primitive succeeds and what it returns.  Stores through a raw pointer
are modelled by `listStore`, which only affects the allocation when
the index is in bounds; an out-of-bounds store is recorded separately
where a claim needs it (the C behaviour there is a heap overrun).
-/

namespace FixEa

/-- One extended-attribute record (`struct xattr`): a name, a value
buffer and its byte count.  The C `length` field always equals the
size of the `value` buffer, so it is represented by `value.length`. -/
structure Xattr where
  name : List Nat
  value : List Nat
  deriving DecidableEq

/-- The `F_*` flag bits of the C program, one boolean per bit. -/
structure Flags where
  append_null_all : Bool := false
  check_afp_ea : Bool := false
  dry_run : Bool := false
  fix_afp_ea : Bool := false
  append_null : Bool := false
  verbose : Bool := false
  debug : Bool := false
  recursive : Bool := false
  deriving DecidableEq

/-- Exit code `EX_OK`. -/
def EX_OK : Nat := 0

/-- Exit code 1, `#define EX_EA_CORRUPTED 1`. -/
def EX_EA_CORRUPTED : Nat := 1

/-- Exit code `EX_DATAERR` (65). -/
def EX_DATAERR : Nat := 65

/-- Exit code `EX_OSERR` (71). -/
def EX_OSERR : Nat := 71

/-- A store `buf[i] = b` as it affects the `buf` allocation itself:
when `i` is outside the allocation the allocation is unchanged (the C
store then corrupts adjacent memory; claims about that record the
offending index separately). -/
def listStore (buf : List Nat) (i b : Nat) : List Nat := buf.set i b

/-- `memcpy(dst, src, n)`: the first `n` bytes of `src` overwrite the
first `n` bytes of `dst`. -/
def memcpy (dst src : List Nat) (n : Nat) : List Nat :=
  src.take n ++ dst.drop n

/-- The corruption signature test, macro `AFP_EA_CORRUPTED(v)`:
`v[0] == 0 && v[1] == 'F' && v[2] == 'P'` (`'F'` = 70, `'P'` = 80).
The macro reads the first three bytes; its only caller guards it with
`length >= 3`, so shorter buffers (where the C read would go out of
bounds) are given the value `false` here. -/
def AFP_EA_CORRUPTED (v : List Nat) : Bool :=
  match v with
  | b0 :: b1 :: b2 :: _ => b0 == 0 && b1 == 70 && b2 == 80
  | _ => false

/-- The classifier's per-record test from `get_afp_list`:
`xptr->length >= 3 && AFP_EA_CORRUPTED(xptr->value)`. -/
def afpSelected (x : Xattr) : Bool :=
  decide (3 ≤ x.value.length) && AFP_EA_CORRUPTED x.value

/-- `get_afp_list`: walk the attribute set and select the records
matching the corruption signature.  The C builds a second `TAILQ`
threaded through the same `struct xattr` nodes (`afp_link`), i.e. a
non-owning selection view; here that view is the filtered list, whose
elements are the records themselves. -/
def get_afp_list (xlist : List Xattr) : List Xattr :=
  xlist.filter afpSelected

/-- `get_append_list`: with `attr == NULL` select every record; with a
name select the first record whose name compares equal and stop. -/
def get_append_list (xlist : List Xattr) (attr : Option (List Nat)) : List Xattr :=
  match attr with
  | none => xlist
  | some a =>
    match xlist.find? (fun x => x.name == a) with
    | none => []
    | some x => [x]

/-- Overwriting the first value byte with `'A'` (65), the repair step
`*((char *)xptr->value) = 'A'`. -/
def fixValue (v : List Nat) : List Nat := v.set 0 65

/-- Result of one `fix_afp_list` run: the accumulated `ret` bitmask,
the selected records as left after the pass (the C mutates them in
place through the selection's aliases), the `extattr_set_fd` calls
issued (name, value), and the names printed by the verbose
"is corrupted" / "is fixed" reports. -/
structure RepairOut where
  ret : Nat
  recs : List Xattr
  writes : List (List Nat × List Nat)
  corruptReports : List (List Nat)
  fixReports : List (List Nat)
  deriving DecidableEq

/-- Loop body of `fix_afp_list`.  `setOk name value` is the oracle for
`extattr_set_fd` (true: returns the byte count written; false: returns
a negative value).  `setret` is threaded across iterations exactly as
the single C variable is. -/
def fix_afp_go (flags : Flags) (setOk : List Nat → List Nat → Bool)
    (setret : Int) (xs : List Xattr) : RepairOut :=
  match xs with
  | [] => ⟨0, [], [], [], []⟩
  | x :: rest =>
    -- if (flags & F_DEBUG) hexdump_ea(...): output only, no state change
    let cret : Nat := if flags.check_afp_ea then EX_EA_CORRUPTED else 0
    let crep : List (List Nat) :=
      if flags.check_afp_ea && flags.verbose then [x.name] else []
    if flags.fix_afp_ea then
      if flags.dry_run then
        let frep : List (List Nat) :=
          if (decide (setret > 0) || flags.dry_run) && flags.verbose then [x.name] else []
        let tl := fix_afp_go flags setOk setret rest
        ⟨cret ||| tl.ret, x :: tl.recs, tl.writes,
         crep ++ tl.corruptReports, frep ++ tl.fixReports⟩
      else
        let x' : Xattr := { x with value := fixValue x.value }
        let ok := setOk x'.name x'.value
        let setret' : Int := if ok then (x'.value.length : Int) else -1
        let fret : Nat := if ok then 0 else EX_EA_CORRUPTED
        let frep : List (List Nat) :=
          if (decide (setret' > 0) || flags.dry_run) && flags.verbose then [x.name] else []
        let tl := fix_afp_go flags setOk setret' rest
        ⟨cret ||| fret ||| tl.ret, x' :: tl.recs, (x'.name, x'.value) :: tl.writes,
         crep ++ tl.corruptReports, frep ++ tl.fixReports⟩
    else
      let tl := fix_afp_go flags setOk setret rest
      ⟨cret ||| tl.ret, x :: tl.recs, tl.writes, crep ++ tl.corruptReports, tl.fixReports⟩

/-- `fix_afp_list` (the C returns -1 only when handed a NULL list
pointer, which has no counterpart for a list value; `ret` and `setret`
start at 0). -/
def fix_afp_list (flags : Flags) (setOk : List Nat → List Nat → Bool)
    (afp_list : List Xattr) : RepairOut :=
  fix_afp_go flags setOk 0 afp_list

/-- Result of one `fix_append_list` run.  `ret = none` models the
`return (-1)` taken when `malloc` for a grown buffer fails; `recs` is
the state of the selected records when the function returns (on the
abort path the not-yet-visited suffix is unchanged), `frees` lists the
old value buffers released by `free(xptr->value)`, and `oobStores`
records each attempted store that fell outside its allocation as
(index, allocation size). -/
structure AppendOut where
  ret : Option Nat
  recs : List Xattr
  writes : List (List Nat × List Nat)
  frees : List (List Nat)
  appendReports : List (List Nat)
  oobStores : List (Nat × Nat)
  deriving DecidableEq

/-- The grown value buffer built by the append step:
`length = xptr->length + 1; buf = malloc(length); memcpy(buf, value,
xptr->length); buf[length] = '\0';`.  `junk` is the (uninitialized)
content `malloc` hands back; the terminator store targets index
`length` of a `length`-byte allocation, so it misses the buffer and
the final byte keeps the value `junk`. -/
def appendNewVal (junk : Nat) (x : Xattr) : List Nat :=
  let length := x.value.length + 1
  listStore (memcpy (List.replicate length junk) x.value x.value.length) length 0

/-- Loop body of `fix_append_list`.  `allocOk i` is the `malloc`
oracle for the i-th visited record, `setOk` the `extattr_set_fd`
oracle; `setret` is threaded across iterations as in the C. -/
def fix_append_go (flags : Flags) (junk : Nat) (setOk : List Nat → List Nat → Bool)
    (allocOk : Nat → Bool) (idx : Nat) (setret : Int) (xs : List Xattr) : AppendOut :=
  match xs with
  | [] => ⟨some 0, [], [], [], [], []⟩
  | x :: rest =>
    -- if (flags & F_DEBUG) hexdump_ea(...): output only, no state change
    if flags.append_null then
      if flags.dry_run then
        let arep : List (List Nat) :=
          if (decide (setret > 0) || flags.dry_run) && flags.verbose then [x.name] else []
        let tl := fix_append_go flags junk setOk allocOk (idx + 1) setret rest
        ⟨tl.ret, x :: tl.recs, tl.writes, tl.frees, arep ++ tl.appendReports, tl.oobStores⟩
      else if allocOk idx then
        let length := x.value.length + 1
        let buf0 := memcpy (List.replicate length junk) x.value x.value.length
        let oob : List (Nat × Nat) :=
          if length < buf0.length then [] else [(length, buf0.length)]
        let x' : Xattr := { x with value := listStore buf0 length 0 }
        let ok := setOk x'.name x'.value
        let setret' : Int := if ok then (length : Int) else -1
        let fret : Nat := if ok then 0 else EX_EA_CORRUPTED
        let arep : List (List Nat) :=
          if (decide (setret' > 0) || flags.dry_run) && flags.verbose then [x.name] else []
        let tl := fix_append_go flags junk setOk allocOk (idx + 1) setret' rest
        ⟨tl.ret.map (fun r => fret ||| r), x' :: tl.recs,
         (x'.name, x'.value) :: tl.writes, x.value :: tl.frees,
         arep ++ tl.appendReports, oob ++ tl.oobStores⟩
      else
        -- malloc failed: warn("malloc"); return (-1);
        ⟨none, x :: rest, [], [], [], []⟩
    else
      let tl := fix_append_go flags junk setOk allocOk (idx + 1) setret rest
      ⟨tl.ret, x :: tl.recs, tl.writes, tl.frees, tl.appendReports, tl.oobStores⟩

/-- `fix_append_list` (as with `fix_afp_list`, the NULL-pointer -1
path has no counterpart for a list value). -/
def fix_append_list (flags : Flags) (junk : Nat) (setOk : List Nat → List Nat → Bool)
    (allocOk : Nat → Bool) (append_list : List Xattr) : AppendOut :=
  fix_append_go flags junk setOk allocOk 0 0 append_list

/-- The oracle environment for one `get_extended_attributes` call:
`listSize` is the return of the size-probing `extattr_list_fd` call
(`none`: negative), `bufAllocOk` the `malloc` for the enumeration
buffer, `listBuf` the return of the filling `extattr_list_fd` call
(length-prefixed name entries), and the per-name oracles are keyed by
the name bytes: `nameAllocOk` the name `malloc`, `sizeQuery` the
probing `extattr_get_fd` (`none`: negative), `valueAllocOk` the value
`malloc`, `fetch` the filling `extattr_get_fd`, `recAllocOk` the
`struct xattr` `malloc`. -/
structure EAEnv where
  listSize : Option Nat
  bufAllocOk : Bool
  listBuf : Option (List Nat)
  nameAllocOk : List Nat → Bool
  sizeQuery : List Nat → Option Nat
  valueAllocOk : List Nat → Bool
  fetch : List Nat → Option (List Nat)
  recAllocOk : List Nat → Bool

/-- Size of the name buffer, `malloc(ch)`: exactly `ch` bytes. -/
def nameAllocSize (ch : Nat) : Nat := ch

/-- The name buffer built for one enumerated entry:
`name = malloc(ch); strncpy(name, &buf[i + 1], ch); name[ch] = '\0';`.
`raw` is the byte sequence after the length byte; the copy places the
`ch` name bytes at indices `0 .. ch - 1` (names contain no NUL, so
`strncpy` copies all `ch` bytes), and the terminator store targets
index `ch` of a `ch`-byte allocation.  The second component records
that store as (index, allocation size) when it misses the buffer. -/
def buildName (raw : List Nat) (ch : Nat) : List Nat × List (Nat × Nat) :=
  let nbuf := raw.take ch
  let oob : List (Nat × Nat) :=
    if ch < nameAllocSize ch then [] else [(ch, nameAllocSize ch)]
  (listStore nbuf ch 0, oob)

/-- The bytes of the literal `"DosStream."` compared by
`strncmp(name, "DosStream.", 10)`. -/
def dosLit : List Nat := [68, 111, 115, 83, 116, 114, 101, 97, 109, 46]

/-- Per-entry step of the enumeration loop in
`get_extended_attributes`: each failing step frees what it holds and
`continue`s, producing no record; a name without the `DosStream.`
prefix is likewise dropped. -/
def entryRecord (env : EAEnv) (ns : List Nat) : Option Xattr :=
  if !env.nameAllocOk ns then none
  else if !(dosLit.isPrefixOf ns) then none
  else
    match env.sizeQuery ns with
    | none => none
    | some _ =>
      if !env.valueAllocOk ns then none
      else
        match env.fetch ns with
        | none => none
        | some v => if env.recAllocOk ns then some ⟨ns, v⟩ else none

/-- The enumeration loop `for (i = 0; i < ret; i += ch + 1)` of
`get_extended_attributes`, written on the remaining suffix of the
buffer: the head byte is the length `ch = (unsigned char)buf[i]`, the
name bytes follow, and the loop resumes `ch + 1` bytes further on.
`fuel` only forces termination structurally; every iteration consumes
at least one byte, so `buf.length` fuel (supplied by `ea_parse`) never
runs out. -/
def ea_parse_go (env : EAEnv) : Nat → List Nat → List Xattr
  | _, [] => []
  | 0, _ :: _ => []
  | fuel + 1, chByte :: rest =>
    let ns := (buildName rest chByte).1
    match entryRecord env ns with
    | none => ea_parse_go env fuel (rest.drop chByte)
    | some r => r :: ea_parse_go env fuel (rest.drop chByte)

/-- The enumeration loop over a whole buffer. -/
def ea_parse (env : EAEnv) (buf : List Nat) : List Xattr :=
  ea_parse_go env buf.length buf

/-- The sequence of name buffers the loop builds, in visiting order
(the loop of `ea_parse_go` with the per-entry processing stripped). -/
def ea_names_go : Nat → List Nat → List (List Nat)
  | _, [] => []
  | 0, _ :: _ => []
  | fuel + 1, chByte :: rest => (buildName rest chByte).1 :: ea_names_go fuel (rest.drop chByte)

/-- The name buffers an enumeration over `buf` visits. -/
def ea_names (buf : List Nat) : List (List Nat) :=
  ea_names_go buf.length buf

/-- `get_extended_attributes`: a failed size probe is success with an
empty set (`return (EX_OK)`); a failed enumeration-buffer `malloc` or
a failed filling `extattr_list_fd` is `return (-1)` (here `.error`);
otherwise the loop collects the records. -/
def get_extended_attributes (env : EAEnv) : Except Unit (List Xattr) :=
  match env.listSize with
  | none => .ok []
  | some _ =>
    if !env.bufAllocOk then .error ()
    else
      match env.listBuf with
      | none => .error ()
      | some buf => .ok (ea_parse env buf)

/-- Resource events of one object-processing cycle: closing the file
descriptor and releasing a record's name or value buffer. -/
inductive Ev where
  | close (fd : Nat)
  | freeName (n : List Nat)
  | freeValue (v : List Nat)
  deriving DecidableEq

/-- `free_extended_attributes`: one name release and one value release
per record of the set, in list order. -/
def freeEvents : List Xattr → List Ev
  | [] => []
  | x :: xs => Ev.freeName x.name :: Ev.freeValue x.value :: freeEvents xs

/-- The `cleanup:` label of `do_ea_stuff_single`: unlink the two
selection views (no events: views own nothing), free the attribute
set, and `if (fd > 0) close(fd)`.  `fd = none` models a failed open
(negative descriptor). -/
def cleanupEvents (fd : Option Nat) (xlist : List Xattr) : List Ev :=
  freeEvents xlist ++
    (match fd with
     | some n => if 0 < n then [Ev.close n] else []
     | none => [])

/-- The state of the primary attribute set after the repair pass: the
pass mutates the selected records in place through the selection's
aliases, so each record of the set that satisfies the corruption test
carries the repaired value afterwards (only in real fix mode). -/
def applyAfpFix (flags : Flags) (xs : List Xattr) : List Xattr :=
  if flags.fix_afp_ea && !flags.dry_run then
    xs.map (fun x => if afpSelected x then { x with value := fixValue x.value } else x)
  else xs

/-- The primary attribute set after the (conditional) check/fix phase
of `do_ea_stuff_single`. -/
def afpPhase (flags : Flags) (xs : List Xattr) : List Xattr :=
  if flags.check_afp_ea || flags.fix_afp_ea then applyAfpFix flags xs else xs

/-- Replace the first record named `a` with the records `news` (the
in-place effect, on the primary list, of the append pass run over a
single-name selection). -/
def updateFirstNamed (a : List Nat) (news : List Xattr) : List Xattr → List Xattr
  | [] => []
  | x :: xs => if x.name == a then news ++ xs else x :: updateFirstNamed a news xs

/-- Oracle environment of one `do_ea_stuff_single` call: `openFd` is
the descriptor `open(path, O_RDONLY)` returns (`none`: negative,
failure), `ea` the reader's oracles, `attr` the `-n` name (or `NULL`),
and `setOk`, `junk`, `allocOk` the write and allocation oracles of the
two fixing passes. -/
structure SEnv where
  openFd : Option Nat
  ea : EAEnv
  attr : Option (List Nat)
  flags : Flags
  setOk : List Nat → List Nat → Bool
  junk : Nat
  allocOk : Nat → Bool

/-- Result of `do_ea_stuff_single`: the returned code, the value
buffers freed inside the append pass (old buffers released on
replacement), and the events of the `cleanup:` block. -/
structure SingleOut where
  ret : Nat
  passFrees : List (List Nat)
  cleanupEvs : List Ev
  deriving DecidableEq

/-- `do_ea_stuff_single`: open, read the attribute set, run the
check/fix pass if requested (`ret = setret`), run the append pass if
requested (`ret = setret` again, overwriting), and fall through to
`cleanup:` from every exit. -/
def do_ea_stuff_single (env : SEnv) : SingleOut :=
  match env.openFd with
  | none => ⟨EX_OSERR, [], cleanupEvents none []⟩
  | some fd =>
    match get_extended_attributes env.ea with
    | .error _ => ⟨EX_DATAERR, [], cleanupEvents (some fd) []⟩
    | .ok xlist0 =>
      let ret1 : Nat :=
        if env.flags.check_afp_ea || env.flags.fix_afp_ea then
          (fix_afp_list env.flags env.setOk (get_afp_list xlist0)).ret
        else 0
      let xlist1 := afpPhase env.flags xlist0
      if env.flags.append_null_all || env.flags.append_null then
        let aout := fix_append_list env.flags env.junk env.setOk env.allocOk
          (get_append_list xlist1 env.attr)
        let xlist2 :=
          match env.attr with
          | none => aout.recs
          | some a => updateFirstNamed a aout.recs xlist1
        match aout.ret with
        | none => ⟨EX_DATAERR, aout.frees, cleanupEvents (some fd) xlist2⟩
        | some r => ⟨r, aout.frees, cleanupEvents (some fd) xlist2⟩
      else ⟨ret1, [], cleanupEvents (some fd) xlist1⟩

/-- The bytes of `"hello"`. -/
def helloBytes : List Nat := [104, 101, 108, 108, 111]

/-- The bytes of `"DosStream.info"` (14 bytes). -/
def infoName : List Nat := [68, 111, 115, 83, 116, 114, 101, 97, 109, 46, 105, 110, 102, 111]

/-- The bytes of `"DosStream.rsrc"` (14 bytes). -/
def rsrcName : List Nat := [68, 111, 115, 83, 116, 114, 101, 97, 109, 46, 114, 115, 114, 99]

/-- The corrupted value of scenario A: `[0x00, 'F', 'P', 0x01, 0x02]`. -/
def afpVal : List Nat := [0, 70, 80, 1, 2]

/-- Scenario D record: attribute `"DosStream.info"` = `"hello"`. -/
def infoRec : Xattr := ⟨infoName, helloBytes⟩

/-- Scenario A record: attribute `"DosStream.rsrc"` with the corrupted
marker. -/
def rsrcRec : Xattr := ⟨rsrcName, afpVal⟩

/-- Flags of an all-append run (`-a` sets both append bits). -/
def apFlags : Flags := { append_null_all := true, append_null := true }

/-- Flags of a verbose check run (`-c -v`). -/
def checkFlags : Flags := { check_afp_ea := true, verbose := true }

/-- A reader environment in which every oracle succeeds, the
enumeration buffer holds the single entry `name`, and the fetched
value is `v`. -/
def allOkEAEnv (name : List Nat) (v : List Nat) : EAEnv :=
  { listSize := some (name.length + 1)
    bufAllocOk := true
    listBuf := some (name.length :: name)
    nameAllocOk := fun _ => true
    sizeQuery := fun _ => some v.length
    valueAllocOk := fun _ => true
    fetch := fun _ => some v
    recAllocOk := fun _ => true }

/-- The repair-only flag word (`-f`). -/
def fixFlags : Flags := { fix_afp_ea := true }

/-- A write oracle failing exactly on the name `"DosStream.rsrc"`. -/
def failRsrcSet : List Nat → List Nat → Bool := fun n _ => !(n == rsrcName)

/-- A reader environment whose initial size query fails and whose name
allocation oracle fails. -/
def failingEAEnv : EAEnv :=
  { listSize := none
    bufAllocOk := true
    listBuf := some []
    nameAllocOk := fun _ => false
    sizeQuery := fun _ => none
    valueAllocOk := fun _ => true
    fetch := fun _ => none
    recAllocOk := fun _ => true }

/-- The object environment of a combined check + all-append cycle over
the scenario-A object (one corrupted record), every write succeeding. -/
def checkAppendEnv : SEnv :=
  { openFd := some 3
    ea := allOkEAEnv rsrcName afpVal
    attr := none
    flags := { check_afp_ea := true, append_null := true, append_null_all := true }
    setOk := fun _ _ => true
    junk := 0
    allocOk := fun _ => true }

/-- The same cycle but with `open` succeeding with descriptor 0 and no
operation requested. -/
def fdZeroEnv : SEnv :=
  { openFd := some 0
    ea := allOkEAEnv rsrcName afpVal
    attr := none
    flags := {}
    setOk := fun _ _ => true
    junk := 0
    allocOk := fun _ => true }

/-- A flag word with dry-run set together with every operation
(check, fix and append). -/
def dryAllFlags : Flags :=
  { check_afp_ea := true, fix_afp_ea := true, append_null := true
    append_null_all := true, dry_run := true, verbose := true }

/-- Whether a resource event is a descriptor close. -/
def isClose : Ev → Bool
  | .close _ => true
  | _ => false

/-- A check-only cycle over the scenario-A object, descriptor 3. -/
def checkOnlyEnv : SEnv :=
  { openFd := some 3
    ea := allOkEAEnv rsrcName afpVal
    attr := none
    flags := checkFlags
    setOk := fun _ _ => true
    junk := 0
    allocOk := fun _ => true }


/-- The classifier's per-record boolean in terms of the first three
bytes. -/
theorem afpSelected_iff (x : Xattr) :
    afpSelected x = true ↔ 3 ≤ x.value.length ∧ x.value.take 3 = [0, 70, 80] := by
  unfold afpSelected AFP_EA_CORRUPTED
  match h : x.value with
  | [] => simp
  | [a] => simp
  | [a, b] => simp
  | a :: b :: c :: t =>
    simp [List.take]
    omega

/-- With dry-run set, the repair loop issues no write and leaves every
record untouched, whatever the other flags and the oracle outcomes. -/
theorem afp_go_dry (flags : Flags) (setOk : List Nat → List Nat → Bool)
    (sr : Int) (xs : List Xattr) (h : flags.dry_run = true) :
    (fix_afp_go flags setOk sr xs).writes = [] ∧ (fix_afp_go flags setOk sr xs).recs = xs := by
  induction xs generalizing sr with
  | nil => simp [fix_afp_go]
  | cons x rest ih =>
    cases hf : flags.fix_afp_ea <;>
      simp [fix_afp_go, hf, h, (ih sr).1, (ih sr).2]

/-- With dry-run set, the append loop issues no write, frees nothing,
mutates nothing and accumulates the `Ok` result. -/
theorem append_go_dry (flags : Flags) (junk : Nat) (setOk : List Nat → List Nat → Bool)
    (allocOk : Nat → Bool) (idx : Nat) (sr : Int) (xs : List Xattr)
    (h : flags.dry_run = true) :
    (fix_append_go flags junk setOk allocOk idx sr xs).writes = [] ∧
    (fix_append_go flags junk setOk allocOk idx sr xs).recs = xs ∧
    (fix_append_go flags junk setOk allocOk idx sr xs).frees = [] ∧
    (fix_append_go flags junk setOk allocOk idx sr xs).ret = some 0 := by
  induction xs generalizing idx sr with
  | nil => simp [fix_append_go]
  | cons x rest ih =>
    cases ha : flags.append_null <;>
      simp [fix_append_go, ha, h,
        (ih (idx + 1) sr).1, (ih (idx + 1) sr).2.1, (ih (idx + 1) sr).2.2.1,
        (ih (idx + 1) sr).2.2.2]

/-- With check mode on and fix mode off, the repair loop writes
nothing, mutates nothing, reports each selected record when verbose,
and accumulates the `Corrupted` bit exactly when the selection is
non-empty. -/
theorem afp_go_check_only (flags : Flags) (setOk : List Nat → List Nat → Bool)
    (sr : Int) (xs : List Xattr)
    (hc : flags.check_afp_ea = true) (hf : flags.fix_afp_ea = false) :
    (fix_afp_go flags setOk sr xs).writes = [] ∧
    (fix_afp_go flags setOk sr xs).recs = xs ∧
    (fix_afp_go flags setOk sr xs).ret = (if xs.isEmpty then 0 else EX_EA_CORRUPTED) ∧
    (fix_afp_go flags setOk sr xs).corruptReports
      = (if flags.verbose then xs.map Xattr.name else []) := by
  induction xs generalizing sr with
  | nil => simp [fix_afp_go]
  | cons x rest ih =>
    obtain ⟨ih1, ih2, ih3, ih4⟩ := ih sr
    cases hv : flags.verbose <;>
      cases he : rest.isEmpty <;>
        simp [fix_afp_go, hc, hf, hv, he, ih1, ih2, ih3, ih4, EX_EA_CORRUPTED]

/-- In real (non-dry-run) fix mode the repair loop issues one write
per selected record, whatever the write outcomes. -/
theorem afp_go_fix_writes (flags : Flags) (setOk : List Nat → List Nat → Bool)
    (xs : List Xattr) (hf : flags.fix_afp_ea = true) (hd : flags.dry_run = false) :
    ∀ sr : Int,
      (fix_afp_go flags setOk sr xs).writes = xs.map (fun x => (x.name, fixValue x.value)) := by
  induction xs with
  | nil => intro sr; simp [fix_afp_go]
  | cons x rest ih => intro sr; simp [fix_afp_go, hf, hd, ih]

/-- In real (non-dry-run) fix mode the repair loop repairs each
selected record in memory. -/
theorem afp_go_fix_recs (flags : Flags) (setOk : List Nat → List Nat → Bool)
    (xs : List Xattr) (hf : flags.fix_afp_ea = true) (hd : flags.dry_run = false) :
    ∀ sr : Int,
      (fix_afp_go flags setOk sr xs).recs
        = xs.map (fun x => { x with value := fixValue x.value }) := by
  induction xs with
  | nil => intro sr; simp [fix_afp_go]
  | cons x rest ih => intro sr; simp [fix_afp_go, hf, hd, ih]

/-- In real (non-dry-run) fix mode the accumulated result is the
`Corrupted` bit of check mode OR-ed with the `WriteFailure` bit, the
latter present exactly when some write failed. -/
theorem afp_go_fix_ret (flags : Flags) (setOk : List Nat → List Nat → Bool)
    (xs : List Xattr) (hf : flags.fix_afp_ea = true) (hd : flags.dry_run = false) :
    ∀ sr : Int,
      (fix_afp_go flags setOk sr xs).ret
        = (if flags.check_afp_ea && !xs.isEmpty then EX_EA_CORRUPTED else 0) |||
          (if xs.all (fun x => setOk x.name (fixValue x.value)) then 0 else EX_EA_CORRUPTED) := by
  induction xs with
  | nil => intro sr; simp [fix_afp_go]
  | cons x rest ih =>
    intro sr
    cases hc : flags.check_afp_ea <;>
      cases hok : setOk x.name (fixValue x.value) <;>
        cases he : rest.isEmpty <;>
          cases ha : rest.all (fun x => setOk x.name (fixValue x.value)) <;>
            simp [fix_afp_go, hf, hd, hc, hok, he, ha, ih, EX_EA_CORRUPTED]

/-- In real (non-dry-run) append mode with every allocation
succeeding, the append loop issues one write per selected record,
whatever the write outcomes. -/
theorem append_go_run_writes (flags : Flags) (junk : Nat)
    (setOk : List Nat → List Nat → Bool) (allocOk : Nat → Bool) (xs : List Xattr)
    (ha : flags.append_null = true) (hd : flags.dry_run = false)
    (hA : ∀ i, allocOk i = true) :
    ∀ idx (sr : Int),
      (fix_append_go flags junk setOk allocOk idx sr xs).writes
        = xs.map (fun x => (x.name, appendNewVal junk x)) := by
  induction xs with
  | nil => intro idx sr; simp [fix_append_go]
  | cons x rest ih => intro idx sr; simp [fix_append_go, ha, hd, hA idx, appendNewVal, ih]

/-- In real (non-dry-run) append mode with every allocation
succeeding, the append loop grows every selected record in memory. -/
theorem append_go_run_recs (flags : Flags) (junk : Nat)
    (setOk : List Nat → List Nat → Bool) (allocOk : Nat → Bool) (xs : List Xattr)
    (ha : flags.append_null = true) (hd : flags.dry_run = false)
    (hA : ∀ i, allocOk i = true) :
    ∀ idx (sr : Int),
      (fix_append_go flags junk setOk allocOk idx sr xs).recs
        = xs.map (fun x => { x with value := appendNewVal junk x }) := by
  induction xs with
  | nil => intro idx sr; simp [fix_append_go]
  | cons x rest ih => intro idx sr; simp [fix_append_go, ha, hd, hA idx, appendNewVal, ih]

/-- In real (non-dry-run) append mode with every allocation
succeeding, the append loop frees exactly the old value buffers. -/
theorem append_go_run_frees (flags : Flags) (junk : Nat)
    (setOk : List Nat → List Nat → Bool) (allocOk : Nat → Bool) (xs : List Xattr)
    (ha : flags.append_null = true) (hd : flags.dry_run = false)
    (hA : ∀ i, allocOk i = true) :
    ∀ idx (sr : Int),
      (fix_append_go flags junk setOk allocOk idx sr xs).frees = xs.map Xattr.value := by
  induction xs with
  | nil => intro idx sr; simp [fix_append_go]
  | cons x rest ih => intro idx sr; simp [fix_append_go, ha, hd, hA idx, appendNewVal, ih]

/-- In real (non-dry-run) append mode with every allocation
succeeding, the append loop never aborts and returns the
`WriteFailure` bit exactly when some write failed. -/
theorem append_go_run_ret (flags : Flags) (junk : Nat)
    (setOk : List Nat → List Nat → Bool) (allocOk : Nat → Bool) (xs : List Xattr)
    (ha : flags.append_null = true) (hd : flags.dry_run = false)
    (hA : ∀ i, allocOk i = true) :
    ∀ idx (sr : Int),
      (fix_append_go flags junk setOk allocOk idx sr xs).ret
        = some (if xs.all (fun x => setOk x.name (appendNewVal junk x)) then 0
                else EX_EA_CORRUPTED) := by
  induction xs with
  | nil => intro idx sr; simp [fix_append_go]
  | cons x rest ih =>
    intro idx sr
    have hfold : appendNewVal junk x
        = listStore (memcpy (List.replicate (x.value.length + 1) junk) x.value x.value.length)
            (x.value.length + 1) 0 := rfl
    cases hok : setOk x.name (appendNewVal junk x) <;>
      cases hall : rest.all (fun x => setOk x.name (appendNewVal junk x)) <;>
        simp [fix_append_go, ha, hd, hA idx, ih, ← hfold, hok, hall, EX_EA_CORRUPTED]

/-- The enumeration loop is the per-entry step mapped over the visited
names, dropping the skipped entries: a skipped entry adds no record
and the loop continues with the next entry. -/
theorem ea_go_filterMap (env : EAEnv) (fuel : Nat) (buf : List Nat) :
    ea_parse_go env fuel buf = (ea_names_go fuel buf).filterMap (entryRecord env) := by
  induction fuel generalizing buf with
  | zero => cases buf <;> simp [ea_parse_go, ea_names_go]
  | succ n ih =>
    cases buf with
    | nil => simp [ea_parse_go, ea_names_go]
    | cons chByte rest =>
      cases h : entryRecord env (buildName rest chByte).1 <;>
        simp [ea_parse_go, ea_names_go, h, ih]

/-- Releasing an attribute set closes no descriptor: its events are
name and value releases only. -/
theorem freeEvents_no_close (xs : List Xattr) : (freeEvents xs).countP isClose = 0 := by
  induction xs with
  | nil => simp [freeEvents]
  | cons x rest ih => simp [freeEvents, List.countP_cons, isClose, ih]

/-- C4: `get_afp_list` selects a record of the read set if and only if
its length is at least 3 and its first three value bytes are
0x00, 'F', 'P'; the selection is a sublist of the primary set built
from the records themselves, and the pass rebuilds neither the
records nor the set. -/
theorem c4_classifier_selects_exactly_corrupted (x : Xattr) (xs : List Xattr) :
    (x ∈ get_afp_list xs ↔ x ∈ xs ∧ 3 ≤ x.value.length ∧ x.value.take 3 = [0, 70, 80]) ∧
    (get_afp_list xs).Sublist xs := by
  constructor
  · rw [get_afp_list, List.mem_filter, afpSelected_iff]
  · exact List.filter_sublist xs

/-- C5: with dry-run set, neither the repair pass nor the append pass
issues a set-value write, and both leave every record of their
selection (value bytes and length) unchanged; the append pass also
frees nothing. -/
theorem c5_dry_run_is_pure (flags : Flags) (setOk : List Nat → List Nat → Bool)
    (junk : Nat) (allocOk : Nat → Bool) (xs ys : List Xattr)
    (h : flags.dry_run = true) :
    (fix_afp_list flags setOk xs).writes = [] ∧
    (fix_afp_list flags setOk xs).recs = xs ∧
    (fix_append_list flags junk setOk allocOk ys).writes = [] ∧
    (fix_append_list flags junk setOk allocOk ys).recs = ys ∧
    (fix_append_list flags junk setOk allocOk ys).frees = [] := by
  refine ⟨?_, ?_, ?_, ?_, ?_⟩
  · exact (afp_go_dry flags setOk 0 xs h).1
  · exact (afp_go_dry flags setOk 0 xs h).2
  · exact (append_go_dry flags junk setOk allocOk 0 0 ys h).1
  · exact (append_go_dry flags junk setOk allocOk 0 0 ys h).2.1
  · exact (append_go_dry flags junk setOk allocOk 0 0 ys h).2.2.1

/-- C5 witness: a concrete dry-run over the scenario records. -/
theorem c5_witness :
    (fix_afp_list dryAllFlags (fun _ _ => true) [rsrcRec]).writes = [] ∧
    (fix_afp_list dryAllFlags (fun _ _ => true) [rsrcRec]).recs = [rsrcRec] ∧
    (fix_append_list dryAllFlags 0 (fun _ _ => true) (fun _ => true) [infoRec]).writes = [] ∧
    (fix_append_list dryAllFlags 0 (fun _ _ => true) (fun _ => true) [infoRec]).recs = [infoRec] ∧
    (fix_append_list dryAllFlags 0 (fun _ _ => true) (fun _ => true) [infoRec]).frees = [] :=
  c5_dry_run_is_pure dryAllFlags (fun _ _ => true) 0 (fun _ => true) [rsrcRec] [infoRec] rfl

/-- C1: at scenario D (`"DosStream.info"` = `"hello"`, all-append, no
dry-run) the single write issued stores a 6-byte value whose first
five bytes are `"hello"` but whose final byte is the uninitialized
allocation content (170 here) rather than the null terminator: the
terminator store misses the allocation, so the stored value is not
the old value followed by one null byte. -/
theorem c1_append_stores_uninitialized_final_byte :
    (fix_append_list apFlags 170 (fun _ _ => true) (fun _ => true) [infoRec]).writes
      = [(infoName, helloBytes ++ [170])] ∧
    (helloBytes ++ [170]).length = 6 ∧
    helloBytes ++ [170] ≠ helloBytes ++ [0] := by decide

/-- C3: at scenario D the append step's terminator store targets
index 6 of a 6-byte allocation (recorded as the pair (index, size)),
which is one past the last valid index 5; consequently the in-bounds
content of the new buffer keeps the uninitialized byte at index 5
instead of a terminator.  The claim that the terminator lands at the
last valid index `old_length` is false of this code. -/
theorem c3_terminator_store_out_of_bounds :
    (fix_append_list apFlags 170 (fun _ _ => true) (fun _ => true) [infoRec]).oobStores
      = [(6, 6)] ∧
    ¬ (6 : Nat) < 6 ∧
    (fix_append_list apFlags 170 (fun _ _ => true) (fun _ => true) [infoRec]).recs.map Xattr.value
      = [helloBytes ++ [170]] := by decide

/-- C10: for the enumerated name `"DosStream.info"` (L = 14 bytes) the
reader allocates `nameAllocSize 14 = 14` bytes — not at least L + 1 —
and its NUL store targets index 14 of that 14-byte allocation
(recorded as the pair (index, size)), an invalid index.  The claim
that the allocation holds at least L + 1 bytes is false of this
code. -/
theorem c10_name_terminator_out_of_bounds :
    (buildName infoName 14).2 = [(14, nameAllocSize 14)] ∧
    nameAllocSize 14 = 14 ∧
    ¬ (14 : Nat) < nameAllocSize 14 ∧
    get_extended_attributes (allOkEAEnv infoName helloBytes) = Except.ok [infoRec] :=
  ⟨by decide, rfl, by decide, rfl⟩

/-- C7: in a real (non-dry-run) repair or append pass a failing
set-value write never aborts the selection: one write is issued per
selected record whatever the per-record write outcomes, the append
pass still returns a result (no abort), and the only effect of
failures on the accumulated result is the presence of the
write-failure bit (1), exactly when some write failed. -/
theorem c7_write_failure_never_aborts (flags : Flags)
    (setOk : List Nat → List Nat → Bool) (junk : Nat) (allocOk : Nat → Bool)
    (xs ys : List Xattr) (hd : flags.dry_run = false) :
    (flags.fix_afp_ea = true →
      (fix_afp_list flags setOk xs).writes = xs.map (fun x => (x.name, fixValue x.value)) ∧
      (fix_afp_list flags setOk xs).ret
        = (if flags.check_afp_ea && !xs.isEmpty then EX_EA_CORRUPTED else 0) |||
          (if xs.all (fun x => setOk x.name (fixValue x.value)) then 0 else EX_EA_CORRUPTED)) ∧
    (flags.append_null = true → (∀ i, allocOk i = true) →
      (fix_append_list flags junk setOk allocOk ys).writes
        = ys.map (fun x => (x.name, appendNewVal junk x)) ∧
      (fix_append_list flags junk setOk allocOk ys).ret
        = some (if ys.all (fun x => setOk x.name (appendNewVal junk x)) then 0
                else EX_EA_CORRUPTED)) := by
  constructor
  · intro hf
    exact ⟨afp_go_fix_writes flags setOk xs hf hd 0, afp_go_fix_ret flags setOk xs hf hd 0⟩
  · intro ha hA
    exact ⟨append_go_run_writes flags junk setOk allocOk ys ha hd hA 0 0,
           append_go_run_ret flags junk setOk allocOk ys ha hd hA 0 0⟩

/-- C7 witness: a two-record selection whose first write fails — both
writes are still issued and the result carries exactly the failure
bit. -/
theorem c7_witness :
    (fixFlags.fix_afp_ea = true →
      (fix_afp_list fixFlags failRsrcSet [rsrcRec, infoRec]).writes
        = [rsrcRec, infoRec].map (fun x => (x.name, fixValue x.value)) ∧
      (fix_afp_list fixFlags failRsrcSet [rsrcRec, infoRec]).ret
        = (if fixFlags.check_afp_ea && !([rsrcRec, infoRec].isEmpty) then EX_EA_CORRUPTED else 0) |||
          (if [rsrcRec, infoRec].all (fun x => failRsrcSet x.name (fixValue x.value)) then 0
           else EX_EA_CORRUPTED)) ∧
    (fixFlags.append_null = true → (∀ i, (fun _ => true : Nat → Bool) i = true) →
      (fix_append_list fixFlags 0 failRsrcSet (fun _ => true) [rsrcRec, infoRec]).writes
        = [rsrcRec, infoRec].map (fun x => (x.name, appendNewVal 0 x)) ∧
      (fix_append_list fixFlags 0 failRsrcSet (fun _ => true) [rsrcRec, infoRec]).ret
        = some (if [rsrcRec, infoRec].all (fun x => failRsrcSet x.name (appendNewVal 0 x)) then 0
                else EX_EA_CORRUPTED)) :=
  c7_write_failure_never_aborts fixFlags failRsrcSet 0 (fun _ => true) [rsrcRec, infoRec]
    [rsrcRec, infoRec] rfl

/-- C6: with check mode on and fix mode off the repair pass issues no
set-value write and mutates no record; its result carries the
`Corrupted` bit (1) exactly when the corruption selection is
non-empty, one verbose report is emitted per selected record, and an
object-processing cycle without an append request returns that bit as
its exit code. -/
theorem c6_check_mode_reports_without_writing (flags : Flags)
    (setOk : List Nat → List Nat → Bool) (xs : List Xattr)
    (hc : flags.check_afp_ea = true) (hf : flags.fix_afp_ea = false) :
    (fix_afp_list flags setOk xs).writes = [] ∧
    (fix_afp_list flags setOk xs).recs = xs ∧
    (fix_afp_list flags setOk xs).ret = (if xs.isEmpty then 0 else EX_EA_CORRUPTED) ∧
    (fix_afp_list flags setOk xs).corruptReports
      = (if flags.verbose then xs.map Xattr.name else []) ∧
    (∀ env : SEnv, ∀ fd : Nat, ∀ xs0 : List Xattr,
      env.flags = flags → flags.append_null = false → flags.append_null_all = false →
      env.openFd = some fd → get_extended_attributes env.ea = Except.ok xs0 →
      (do_ea_stuff_single env).ret
        = (if (get_afp_list xs0).isEmpty then 0 else EX_EA_CORRUPTED)) := by
  obtain ⟨h1, h2, h3, h4⟩ := afp_go_check_only flags setOk 0 xs hc hf
  refine ⟨h1, h2, h3, h4, ?_⟩
  intro env fd xs0 he hna hnaa ho hr
  obtain ⟨-, -, g3, -⟩ :=
    afp_go_check_only flags env.setOk 0 (get_afp_list xs0) hc hf
  simp only [do_ea_stuff_single, ho, hr, he, hna, hnaa, hc, Bool.true_or, if_true,
    Bool.or_false, Bool.false_or, if_false]
  exact g3

/-- C6 witness: the scenario-A object (one corrupted record) under a
verbose check run — one corruption reported, exit code 1. -/
theorem c6_witness :
    (fix_afp_list checkFlags (fun _ _ => true) [rsrcRec]).writes = [] ∧
    (fix_afp_list checkFlags (fun _ _ => true) [rsrcRec]).recs = [rsrcRec] ∧
    (fix_afp_list checkFlags (fun _ _ => true) [rsrcRec]).ret
      = (if [rsrcRec].isEmpty then 0 else EX_EA_CORRUPTED) ∧
    (fix_afp_list checkFlags (fun _ _ => true) [rsrcRec]).corruptReports
      = (if checkFlags.verbose then [rsrcRec].map Xattr.name else []) ∧
    (∀ env : SEnv, ∀ fd : Nat, ∀ xs0 : List Xattr,
      env.flags = checkFlags → checkFlags.append_null = false →
      checkFlags.append_null_all = false →
      env.openFd = some fd → get_extended_attributes env.ea = Except.ok xs0 →
      (do_ea_stuff_single env).ret
        = (if (get_afp_list xs0).isEmpty then 0 else EX_EA_CORRUPTED)) :=
  c6_check_mode_reports_without_writing checkFlags (fun _ _ => true) [rsrcRec] rfl rfl

/-- C8: a failed initial size query makes the reader return success
with an empty set; the enumeration loop equals the per-entry step
mapped over all visited names with failed entries dropped (so a
failing entry skips only itself and enumeration continues); and an
entry whose name allocation, value size query, value allocation or
value fetch fails contributes no record at all. -/
theorem c8_reader_error_handling (env : EAEnv) :
    (env.listSize = none → get_extended_attributes env = Except.ok []) ∧
    (∀ buf : List Nat, ea_parse env buf = (ea_names buf).filterMap (entryRecord env)) ∧
    (∀ ns : List Nat,
      env.nameAllocOk ns = false ∨ env.sizeQuery ns = none ∨
        env.valueAllocOk ns = false ∨ env.fetch ns = none →
      entryRecord env ns = none) := by
  refine ⟨?_, ?_, ?_⟩
  · intro h; simp [get_extended_attributes, h]
  · intro buf; exact ea_go_filterMap env buf.length buf
  · intro ns h
    rcases h with h | h | h | h <;>
      simp [entryRecord, h] <;>
        intros <;>
          cases env.sizeQuery ns <;> simp

/-- C8 witness: a reader whose size query fails returns the empty set
with success, and an entry whose name allocation fails yields no
record. -/
theorem c8_witness :
    get_extended_attributes failingEAEnv = Except.ok [] ∧
    entryRecord failingEAEnv infoName = none :=
  ⟨(c8_reader_error_handling failingEAEnv).1 rfl,
   (c8_reader_error_handling failingEAEnv).2.2 infoName (Or.inl rfl)⟩

/-- C2 counterexample: a cycle combining check and all-append over the
scenario-A object.  The check pass's result bitmask is 1 (corrupted)
and the append pass's is 0, so their bitwise OR is 1; yet
`do_ea_stuff_single` returns 0 — the append pass's `ret = setret`
assignment discarded the `Corrupted` bit. -/
theorem c2_counterexample :
    (do_ea_stuff_single checkAppendEnv).ret = 0 ∧
    get_extended_attributes checkAppendEnv.ea = Except.ok [rsrcRec] ∧
    (fix_afp_list checkAppendEnv.flags checkAppendEnv.setOk (get_afp_list [rsrcRec])).ret
      = EX_EA_CORRUPTED ∧
    (fix_append_list checkAppendEnv.flags checkAppendEnv.junk checkAppendEnv.setOk
        checkAppendEnv.allocOk
        (get_append_list (afpPhase checkAppendEnv.flags [rsrcRec]) checkAppendEnv.attr)).ret
      = some 0 ∧
    EX_EA_CORRUPTED ||| 0 ≠ 0 :=
  ⟨by decide, rfl, by decide, by decide, by decide⟩

/-- C2 (amended): when the append pass runs and completes,
`do_ea_stuff_single` returns the append pass's result bitmask alone —
`ret = setret` overwrites the check/fix pass's bits instead of OR-ing
them in. -/
theorem c2_append_result_overwrites (env : SEnv) (fd : Nat) (xs : List Xattr) (r : Nat)
    (ho : env.openFd = some fd)
    (hr : get_extended_attributes env.ea = Except.ok xs)
    (hap : (env.flags.append_null_all || env.flags.append_null) = true)
    (hret : (fix_append_list env.flags env.junk env.setOk env.allocOk
        (get_append_list (afpPhase env.flags xs) env.attr)).ret = some r) :
    (do_ea_stuff_single env).ret = r := by
  simp only [do_ea_stuff_single, ho, hr, hap, if_true, hret]

/-- C2 witness: the counterexample cycle, through the amended
statement — final code 0, the append pass's result. -/
theorem c2_witness : (do_ea_stuff_single checkAppendEnv).ret = 0 :=
  c2_append_result_overwrites checkAppendEnv 3 [rsrcRec] 0 rfl rfl rfl (by decide)

/-- C9 counterexample: an object cycle whose `open` succeeds with
descriptor 0.  The cleanup guard `if (fd > 0)` skips the close, so the
cleanup events contain no close at all — the handle of a successful
open is not closed. -/
theorem c9_counterexample :
    fdZeroEnv.openFd = some 0 ∧
    (do_ea_stuff_single fdZeroEnv).cleanupEvs
      = [Ev.freeName rsrcName, Ev.freeValue afpVal] ∧
    (do_ea_stuff_single fdZeroEnv).cleanupEvs.countP isClose = 0 :=
  ⟨rfl, by decide, by decide⟩

/-- C9 (amended): whenever `open` returns a strictly positive
descriptor, every exit path of the cycle runs the guaranteed cleanup
block, which frees each record of the final attribute set exactly once
(one name release and one value release per record) and then closes
the descriptor exactly once, as the last cleanup action. -/
theorem c9_cleanup_on_every_path (env : SEnv) (fd : Nat)
    (ho : env.openFd = some fd) (hfd : 0 < fd) :
    (∃ xs : List Xattr,
      (do_ea_stuff_single env).cleanupEvs = freeEvents xs ++ [Ev.close fd]) ∧
    (do_ea_stuff_single env).cleanupEvs.countP isClose = 1 := by
  have hclean : ∀ ys : List Xattr,
      cleanupEvents (some fd) ys = freeEvents ys ++ [Ev.close fd] := by
    intro ys; simp [cleanupEvents, hfd]
  have main : ∃ xs : List Xattr,
      (do_ea_stuff_single env).cleanupEvs = freeEvents xs ++ [Ev.close fd] := by
    simp only [do_ea_stuff_single, ho]
    split
    · exact ⟨[], hclean []⟩
    · split
      · split
        · exact ⟨_, hclean _⟩
        · exact ⟨_, hclean _⟩
      · exact ⟨_, hclean _⟩
  refine ⟨main, ?_⟩
  obtain ⟨xs, hxs⟩ := main
  rw [hxs]
  simp [List.countP_append, freeEvents_no_close, isClose]

/-- C9 witness: a check-only cycle on descriptor 3 — the cleanup frees
the set and closes descriptor 3 once. -/
theorem c9_witness :
    (∃ xs : List Xattr,
      (do_ea_stuff_single checkOnlyEnv).cleanupEvs = freeEvents xs ++ [Ev.close 3]) ∧
    (do_ea_stuff_single checkOnlyEnv).cleanupEvs.countP isClose = 1 :=
  c9_cleanup_on_every_path checkOnlyEnv 3 rfl (by decide)

end FixEa
